import Mathlib

/-!
# Verification of the `gitlab-users` command-line tool

A shallow embedding, in Lean 4, of the pure logic of the `gitlab-users`
repository (CSV loading and export, user-creation and user-deletion
workflows, activity classification, and the yes/no confirmation prompt),
together with theorems checking the repository's natural-language
specification against the code.

The repository contains two generations of the tool:

* the historical script `gitlab_users/gitlab_users.py` (called "v1" below);
* the current package `src/gitlab_users/` with `cli.py`, `services.py`,
  `utils.py`, `models.py`, and a newer copy of `gitlab_users.py`
  (called "v2" below).

Remote GitLab state is modelled as explicit data (`RemoteState`); remote
mutations are reified as a list of `RemoteCall` values emitted by each
workflow.  Interactive input is modelled as a list of strings consumed by
the prompt.  Python's `csv` module (an external collaborator of the code)
is modelled by a character-level state machine implementing its default
dialect: `,` delimiter, `"` quote with doubling, minimal quoting, and
`\r\n` line terminator on writing.
-/

/-! ## Python string helpers -/

/-- The whitespace characters removed by Python's `str.strip()`
(space, tab, newline, carriage return, vertical tab, form feed). -/
def pyIsSpace (c : Char) : Bool :=
  c = ' ' ∨ c = '\t' ∨ c = '\n' ∨ c = '\r' ∨ c = '\x0b' ∨ c = '\x0c'

/-- Python `str.strip()` on a list of characters. -/
def pyStrip (l : List Char) : List Char :=
  ((l.dropWhile pyIsSpace).reverse.dropWhile pyIsSpace).reverse

/-- Python `str.strip()` on a `String`. -/
def pyStripS (s : String) : String :=
  ⟨pyStrip s.data⟩

/-- Python `str.lower()` (ASCII range, which covers the answer keywords
and access-level names compared by the tool). -/
def pyLower (s : String) : String :=
  ⟨s.data.map Char.toLower⟩

/-- Python `str.upper()` (ASCII range). -/
def pyUpper (s : String) : String :=
  ⟨s.data.map Char.toUpper⟩

/-- Python truthiness of an optional string attribute: `None` and the
empty string are falsy, every other string is truthy. -/
def pyTruthy (o : Option String) : Bool :=
  match o with
  | none => false
  | some s => s ≠ ""

/-! ## The `csv` module: reading

Python's `csv.reader` with the default dialect, embedded as a character
state machine.  A fully blank input line yields the empty record `[]`;
quoted fields may contain delimiters, doubled quotes and line breaks;
records end at `\n`, `\r\n` or a lone `\r`. -/

/-- Scanner mode of the CSV reader: at a field boundary (`start`), inside
an unquoted field (`unq`), inside a quoted field (`q`), inside a field
just after a closing quote (`qq`), or just after a `\r` that ended a
record (`cr`, so that a following `\n` is not a second record end). -/
inductive CsvMode where
  | start : CsvMode
  | unq : CsvMode
  | q : CsvMode
  | qq : CsvMode
  | cr : CsvMode
  deriving DecidableEq, Repr

/-- State of the CSV reader: the characters of the field being read, the
completed fields of the record being read, the completed records, and the
scanner mode. -/
structure CsvSt where
  field : List Char
  record : List (List Char)
  records : List (List (List Char))
  mode : CsvMode
  deriving DecidableEq, Repr

/-- End the current record: a record end seen at a fresh record start
(nothing read yet) emits the empty record, as `csv.reader` does for a
blank line; otherwise the current field is closed and the record emitted. -/
def csvEndRecord (st : CsvSt) : CsvSt :=
  let row := if st.record = [] ∧ st.field = [] ∧ st.mode = .start
    then [] else st.record ++ [st.field]
  { field := [], record := [], records := st.records ++ [row], mode := .start }

/-- One reader step at a field boundary or inside an unquoted field
(shared by modes `start`, `unq` and, for junk after a closing quote,
`qq`): a quote opens a quoted field only at a field start. -/
def csvStepStart (st : CsvSt) (c : Char) : CsvSt :=
  if c = '"' ∧ st.mode = .start then { st with mode := .q }
  else if c = ',' then
    { st with field := [], record := st.record ++ [st.field], mode := .start }
  else if c = '\n' then csvEndRecord st
  else if c = '\r' then { csvEndRecord st with mode := .cr }
  else
    { st with
      field := st.field ++ [c]
      mode := if st.mode = .qq then .qq else .unq }

/-- One step of the CSV reader on one input character. -/
def csvStep (st : CsvSt) (c : Char) : CsvSt :=
  match st.mode with
  | .q =>
    if c = '"' then { st with mode := .qq }
    else { st with field := st.field ++ [c] }
  | .qq =>
    if c = '"' then { st with field := st.field ++ ['"'], mode := .q }
    else csvStepStart st c
  | .cr =>
    if c = '\n' then { st with mode := .start }
    else csvStepStart { st with mode := .start } c
  | _ => csvStepStart st c

/-- Initial state of the CSV reader. -/
def csvInit : CsvSt :=
  { field := [], record := [], records := [], mode := .start }

/-- Flush the reader state at end of input: input ending without a final
line terminator still yields its last record. -/
def csvFinish (st : CsvSt) : List (List (List Char)) :=
  if (st.record = [] ∧ st.field = [] ∧ st.mode = .start) ∨ st.mode = .cr
  then st.records
  else st.records ++ [st.record ++ [st.field]]

/-- `csv.reader` over a character stream: the list of records, each a list
of fields. -/
def csvParse (l : List Char) : List (List (List Char)) :=
  csvFinish (l.foldl csvStep csvInit)

/-! ## The `csv` module: writing

`csv.writer` with the default dialect (minimal quoting, `"` doubling,
`\r\n` line terminator). -/

/-- Does `csv.writer` have to quote this field under minimal quoting?
Exactly when it contains the delimiter, the quote character, or a
character of the line terminator `\r\n`. -/
def csvNeedsQuote (f : List Char) : Bool :=
  f.any (fun c => c = ',' ∨ c = '"' ∨ c = '\r' ∨ c = '\n')

/-- Double every quote character of a field body. -/
def csvEscape (f : List Char) : List Char :=
  f.flatMap (fun c => if c = '"' then ['"', '"'] else [c])

/-- Encode one field, quoting it if minimal quoting requires it. -/
def csvEncField (f : List Char) : List Char :=
  if csvNeedsQuote f then '"' :: csvEscape f ++ ['"'] else f

/-- Encode one record as `csv.writer.writerow` does: comma-joined encoded
fields plus `\r\n`; a row consisting of one single empty field is written
as `""` so it is not mistaken for a blank line. -/
def csvEncRow (fs : List (List Char)) : List Char :=
  match fs with
  | [[]] => ['"', '"', '\r', '\n']
  | _ => (List.intersperse [','] (fs.map csvEncField)).flatten ++ ['\r', '\n']

/-! ## Line filtering

Both generations build their reader on
`csv.reader(row for row in csvfile if not row.startswith('#'))`:
the physical lines of the file (newline included) are filtered before the
CSV reader sees them. -/

/-- Split a character stream into physical lines, each keeping its
terminating `\n` (as iterating a Python text file does). -/
def splitLinesKeepEnds (l : List Char) : List (List Char) :=
  match l with
  | [] => []
  | c :: cs =>
    if c = '\n' then [c] :: splitLinesKeepEnds cs
    else
      match splitLinesKeepEnds cs with
      | [] => [[c]]
      | line :: rest => (c :: line) :: rest

/-- Drop the physical lines whose first character is `#`, keeping the
rest, and concatenate them back into one stream for the CSV reader. -/
def filterCommentLines (l : List Char) : List Char :=
  ((splitLinesKeepEnds l).filter (fun line => line.head? ≠ some '#')).flatten

/-- The records the tool's loaders see for a given file content:
comment lines removed, then CSV-parsed. -/
def pyCsvRows (content : List Char) : List (List (List Char)) :=
  csvParse (filterCommentLines content)

/-! ## Data model

`models.py` defines the `User` and `Group` dataclasses.  Raw users as
python-gitlab returns them are modelled by `RemoteUserRecord`; the
`email` attribute is optional because unauthenticated or non-admin
listings omit it (`services.py` reads it with `getattr(u, "email", "")`).
-/

/-- The `User` dataclass of `models.py`. -/
structure User where
  id : Nat
  username : String
  email : String
  name : String
  state : String
  deriving DecidableEq, Repr

/-- A raw user object of the remote GitLab instance, as exposed by the
python-gitlab client: `email` and `current_sign_in_at` attributes may be
missing or `None`. -/
structure RemoteUserRecord where
  id : Nat
  username : String
  email : Option String
  name : String
  state : String
  current_sign_in_at : Option String
  deriving DecidableEq, Repr

/-- The remote GitLab state the workflows read: its users and the names
of its groups. -/
structure RemoteState where
  users : List RemoteUserRecord
  groups : List String
  deriving DecidableEq, Repr

/-! ## `services.py` -/

/-- `GitLabService.list_users`: every remote user mapped to a `User`,
with a missing email attribute replaced by the empty string
(`getattr(u, "email", "")`). -/
def list_users (remote : List RemoteUserRecord) : List User :=
  remote.map (fun u =>
    { id := u.id, username := u.username, email := u.email.getD "",
      name := u.name, state := u.state })

/-- `GitLabService.get_user_by_username`: server-side exact-username
filter, `ValueError` when the result list is empty, else the first match
mapped to a `User` with the same `getattr` fallback for email. -/
def get_user_by_username (remote : List RemoteUserRecord) (username : String) :
    Except String User :=
  match remote.filter (fun u => u.username = username) with
  | [] => .error ("User with username " ++ username ++ " not found.")
  | u :: _ =>
    .ok { id := u.id, username := u.username, email := u.email.getD "",
          name := u.name, state := u.state }

/-! ## `utils.py`: CSV loaders and export -/

/-- A record parsed from one creation-CSV row, as
`dict(zip_longest(fieldnames, row))` builds it: each of the seven field
names maps to the row cell at its index, or to `None` past the end of the
row. -/
structure UserRecord where
  username : Option String
  name : Option String
  email : Option String
  organization : Option String
  location : Option String
  group : Option String
  access_level : Option String
  deriving DecidableEq, Repr

/-- `dict(zip_longest(fieldnames, row))` for the seven-field schema. -/
def mkRecord (row : List (List Char)) : UserRecord :=
  { username := (row.get? 0).map List.asString
    name := (row.get? 1).map List.asString
    email := (row.get? 2).map List.asString
    organization := (row.get? 3).map List.asString
    location := (row.get? 4).map List.asString
    group := (row.get? 5).map List.asString
    access_level := (row.get? 6).map List.asString }

/-- The seven fields of a record, in schema order. -/
def recordFields (r : UserRecord) : List (Option String) :=
  [r.username, r.name, r.email, r.organization, r.location, r.group,
   r.access_level]

/-- `utils.get_users_from_csv` (same body as v2
`gitlab_users.get_users_from_csv`): comment lines filtered, every cell
stripped, each row zipped against the seven field names. -/
def get_users_from_csv (content : List Char) : List UserRecord :=
  (pyCsvRows content).map (fun row => mkRecord (row.map pyStrip))

/-- `utils.get_usernames_from_csv`:
`[row[0] for row in csvreader if row]` — first column of each non-blank
row, blank rows skipped. -/
def get_usernames_from_csv (content : List Char) : List String :=
  (((pyCsvRows content).filter (fun row => ¬ row.isEmpty)).map
    (fun row => (row.headD []).asString))

/-- `[row[0] for row in rows]`: the first cell of every row, failing
(`IndexError`) on an empty row. -/
def firstColumns : List (List (List Char)) → Option (List (List Char))
  | [] => some []
  | [] :: _ => none
  | (c :: _) :: rest => (firstColumns rest).map (fun l => c :: l)

/-- v1/v2 `gitlab_users.get_usernames_from_csv`:
`[row[0] for row in csvreader]` — no blank-row guard, so `row[0]` raises
`IndexError` on a fully blank row; the raise is modelled by `none`. -/
def get_usernames_from_csv_v1 (content : List Char) : Option (List String) :=
  (firstColumns (pyCsvRows content)).map (List.map List.asString)

/-- The fields `export_users_to_csv` writes for one user, the `id`
rendered in decimal by `csv.writer`'s `str()` conversion. -/
def exportedFields (u : User) : List (List Char) :=
  [(toString u.id).data, u.username.data, u.name.data, u.email.data,
   u.state.data]

/-- The header row of `export_users_to_csv`. -/
def exportHeader : List (List Char) :=
  [['i', 'd'], "username".data, "name".data, "email".data, "state".data]

/-- `utils.export_users_to_csv`: the full character content of the file
written for a user list — the header row, then one row per user, each
through `csv.writer`. -/
def export_users_to_csv (users : List User) : List Char :=
  csvEncRow exportHeader ++ (users.map (fun u => csvEncRow (exportedFields u))).flatten

/-! ## `query_yes_no` (v1 and v2 `gitlab_users.py`)

The interactive prompt, embedded over the list of successive `input()`
results.  It returns the boolean answer (or `none` when the inputs run
out, where Python would raise `EOFError`) together with the number of
times the question was printed. -/

/-- The `valid` answer dictionary of `query_yes_no`. -/
def validAnswer (c : String) : Option Bool :=
  if c = "yes" ∨ c = "y" ∨ c = "ye" then some true
  else if c = "no" ∨ c = "n" then some false
  else none

/-- The `while True` loop of `query_yes_no`: lower-case each input; an
empty input with a truthy default answers with the default; a key of the
`valid` dictionary answers with its value; anything else re-prompts. -/
def queryLoop (inputs : List String) (dflt : Option String) :
    Option Bool × Nat :=
  match inputs with
  | [] => (none, 1)
  | s :: rest =>
    let choice := pyLower s
    if pyTruthy dflt ∧ choice = "" then (validAnswer (dflt.getD ""), 1)
    else
      match validAnswer choice with
      | some b => (some b, 1)
      | none =>
        let r := queryLoop rest dflt
        (r.1, r.2 + 1)

/-- `query_yes_no(question, default)`: a default other than `None`,
`"yes"` or `"no"` raises `ValueError` before any prompt; otherwise the
prompt loop runs. -/
def query_yes_no (inputs : List String) (dflt : Option String) :
    Option Bool × Nat :=
  if dflt = none ∨ dflt = some "yes" ∨ dflt = some "no" then
    queryLoop inputs dflt
  else (none, 0)

/-! ## Remote mutations -/

/-- A mutating remote API call issued by a workflow. -/
inductive RemoteCall where
  /-- `gl.users.create(userdict)` / `service.create_user(...)`; the v2
  `NewUser` always sends `reset_password=True`. -/
  | createUser (username name email organization location : Option String)
      (resetPassword : Bool) : RemoteCall
  /-- `gluser.save()` after setting `organization` and `location`. -/
  | saveUser (organization location : Option String) : RemoteCall
  /-- `group.members.create(\x7b"user_id": ..., "access_level": ...\x7d)`. -/
  | addToGroup (group : String) (accessLevel : Nat) : RemoteCall
  /-- `gl_user.delete()` / `service.delete_user(user.id)`. -/
  | deleteUser (id : Nat) : RemoteCall
  deriving DecidableEq, Repr

/-- Is this call a user creation? -/
def RemoteCall.isCreate : RemoteCall → Bool
  | .createUser _ _ _ _ _ _ => true
  | _ => false

/-- Is this call a group-membership addition? -/
def RemoteCall.isGroupAdd : RemoteCall → Bool
  | .addToGroup _ _ => true
  | _ => false

/-! ## v2 `NewUser` (creation workflow of `gitlab_users.py`) -/

/-- The `ACCESS_LEVEL` dictionary of v2 `gitlab_users.py`, with the
integer ordinals of `gitlab.const.AccessLevel`. -/
def ACCESS_LEVEL : List (String × Nat) :=
  [("guest", 10), ("reporter", 20), ("developer", 30), ("master", 40),
   ("maintainer", 40), ("owner", 50)]

/-- State of a constructed `NewUser`: the userdict (with `group` and
`access_level` removed when a group was requested) and the saved group
request. -/
structure NewUserState where
  userdict : UserRecord
  group : Option (String × String)
  dry_run : Bool
  deriving DecidableEq, Repr

/-- `NewUser.__init__`: a truthy `group` field requires `access_level` to
be a key of `ACCESS_LEVEL`, else `sys.exit` aborts the whole run (the
error names the bad level); on success the group request is moved out of
the userdict.  (`reset_password = True` is attached at creation time.) -/
def NewUser_init (rec : UserRecord) (dry_run : Bool) :
    Except String NewUserState :=
  if pyTruthy rec.group then
    match rec.access_level with
    | some lvl =>
      if (ACCESS_LEVEL.lookup lvl).isSome then
        .ok { userdict := { rec with group := none, access_level := none }
              group := some (rec.group.getD "", lvl)
              dry_run := dry_run }
      else
        .error ("Wrong access level: " ++ lvl ++ " for group " ++
          rec.group.getD "")
    | none =>
      .error ("Wrong access level: None for group " ++ rec.group.getD "")
  else
    .ok { userdict := rec, group := none, dry_run := dry_run }

/-- `NewUser._check`: the username, email and name of the record must
each be unused on the remote instance (Python's `in` compares the raw
attribute values, `None` included), and a requested group must exist. -/
def NewUser_check (st : RemoteState) (ns : NewUserState) : Bool :=
  let usernameFree : Bool :=
    ¬ st.users.any (fun u => some u.username = ns.userdict.username)
  let emailFree : Bool := ¬ st.users.any (fun u => u.email = ns.userdict.email)
  let nameFree : Bool := ¬ st.users.any (fun u => some u.name = ns.userdict.name)
  let groupOk : Bool := match ns.group with
    | some (g, _) => st.groups.contains g
    | none => true
  usernameFree ∧ emailFree ∧ nameFree ∧ groupOk

/-- The remote calls of `NewUser._create`: `gl.users.create(userdict)`
with the password-reset flag, then `gluser.save()` carrying the
organization and location fields. -/
def NewUser_create_calls (ns : NewUserState) : List RemoteCall :=
  [.createUser ns.userdict.username ns.userdict.name ns.userdict.email
     ns.userdict.organization ns.userdict.location true,
   .saveUser ns.userdict.organization ns.userdict.location]

/-- The remote call of `NewUser._add_to_group` (the group was verified to
exist by `_check` and the remote state has not changed since). -/
def NewUser_group_calls (ns : NewUserState) : List RemoteCall :=
  match ns.group with
  | some (g, lvl) => [.addToGroup g ((ACCESS_LEVEL.lookup lvl).getD 0)]
  | none => []

/-- The remote user a successful creation adds to the instance (the id is
server-assigned; it is modelled as one more than the user count). -/
def createdRemoteUser (st : RemoteState) (ns : NewUserState) :
    RemoteUserRecord :=
  { id := st.users.length + 1
    username := (ns.userdict.username).getD ""
    email := ns.userdict.email
    name := (ns.userdict.name).getD ""
    state := "active"
    current_sign_in_at := none }

/-- `NewUser.save`: `if self._check() and not self.dry_run:` create and,
when a group was requested, add to it; otherwise only a warning is
printed.  Returns the issued calls and the resulting remote state. -/
def NewUser_save (st : RemoteState) (ns : NewUserState) :
    List RemoteCall × RemoteState :=
  if NewUser_check st ns ∧ ¬ ns.dry_run then
    (NewUser_create_calls ns ++ NewUser_group_calls ns,
     { st with users := st.users ++ [createdRemoteUser st ns] })
  else ([], st)

/-- The `--create-from` loop of v2 `gitlab_users.main`: each record is
turned into a `NewUser` and saved; a `sys.exit` raised by
`NewUser.__init__` aborts the whole run (returned as `some message`),
records after it are never processed. -/
def createFromCsv_v2 (st : RemoteState) (recs : List UserRecord)
    (dry_run : Bool) : List RemoteCall × Option String :=
  match recs with
  | [] => ([], none)
  | rec :: rest =>
    match NewUser_init rec dry_run with
    | .error e => ([], some e)
    | .ok ns =>
      let saved := NewUser_save st ns
      let next := createFromCsv_v2 saved.2 rest dry_run
      (saved.1 ++ next.1, next.2)

/-! ## `cli.py` creation workflow (`create-from-csv`) -/

/-- The `AccessLevel` constants of `cli.py` and the
`getattr(AccessLevel, access_level.upper(), None)` lookup: the upper-cased
level name resolved against the class attributes, `None` when unknown. -/
def cliAccessLevel (access_level : String) : Option Nat :=
  List.lookup (pyUpper access_level)
    [("MINIMAL_ACCESS", 5), ("GUEST", 10), ("REPORTER", 20),
     ("DEVELOPER", 30), ("MAINTAINER", 40), ("OWNER", 50)]

/-- One iteration of the `create-from-csv` loop of `cli.py`: in dry-run
mode nothing is issued; otherwise `service.create_user` is always called
(there is no conflict pre-check in this generation), and then, when both
`group` and `access_level` are truthy, the group is fetched (a failure is
caught and reported) and, when the upper-cased level resolves and is
non-zero, a member-add call follows.  An unknown level only skips the
group addition. -/
def cliCreateOne (st : RemoteState) (rec : UserRecord) (dry_run : Bool) :
    List RemoteCall :=
  if dry_run then []
  else
    RemoteCall.createUser rec.username rec.name rec.email
      (if pyTruthy rec.organization then rec.organization else none)
      (if pyTruthy rec.location then rec.location else none) true ::
    (if pyTruthy rec.group ∧ pyTruthy rec.access_level then
      if st.groups.contains (rec.group.getD "") then
        match cliAccessLevel (rec.access_level.getD "") with
        | some lvl =>
          if lvl ≠ 0 then [.addToGroup (rec.group.getD "") lvl] else []
        | none => []
      else []
    else [])

/-- The `create-from-csv` loop of `cli.py` over all parsed records: the
calls of each record in file order (no state is consulted between
records; the v2 CLI performs no uniqueness check). -/
def cliCreateFromCsv (st : RemoteState) (recs : List UserRecord)
    (dry_run : Bool) : List RemoteCall :=
  (recs.map (fun rec => cliCreateOne st rec dry_run)).flatten

/-! ## Deletion workflows -/

/-- The observable effects of a deletion path: the remote calls issued
and the number of confirmation prompts displayed. -/
structure DelEffects where
  calls : List RemoteCall
  promptsShown : Nat
  deriving DecidableEq, Repr

/-- v2 `OldUser`: `__init__` looks the username up
(`gl.users.list(username=...)`); `delete` warns and stops for an unknown
user, and otherwise runs
`if not self.dry_run and query_yes_no("Delete?", default="no")` —
the prompt is short-circuited away in dry-run mode, and the user is
deleted only on an affirmative answer. -/
def OldUser_delete (st : RemoteState) (username : String) (dry_run : Bool)
    (inputs : List String) : DelEffects :=
  match st.users.filter (fun u => u.username = username) with
  | [] => { calls := [], promptsShown := 0 }
  | u :: _ =>
    if dry_run then { calls := [], promptsShown := 0 }
    else
      let q := query_yes_no inputs (some "no")
      if q.1 = some true then
        { calls := [.deleteUser u.id], promptsShown := q.2 }
      else { calls := [], promptsShown := q.2 }

/-- v1 `OldUser`: identical to the v2 deletion but with no dry-run flag —
the prompt always guards the deletion of a found user. -/
def OldUser_delete_v1 (st : RemoteState) (username : String)
    (inputs : List String) : DelEffects :=
  match st.users.filter (fun u => u.username = username) with
  | [] => { calls := [], promptsShown := 0 }
  | u :: _ =>
    let q := query_yes_no inputs (some "no")
    if q.1 = some true then
      { calls := [.deleteUser u.id], promptsShown := q.2 }
    else { calls := [], promptsShown := q.2 }

/-- The confirmation test of the `delete-from-csv` branch of `cli.py`:
`input(...).strip().lower() in ("y", "yes")`. -/
def cliConfirm (s : String) : Bool :=
  pyLower (pyStripS s) = "y" ∨ pyLower (pyStripS s) = "yes"

/-- The `delete-from-csv` loop of `cli.py`: each username is looked up
(`ValueError` is caught and reported, processing continues); in dry-run
mode nothing further happens; otherwise one `input()` is consumed for the
prompt and the user is deleted exactly when the stripped, lower-cased
answer is `y` or `yes`.  Exhausted inputs (`EOFError`) abort the run. -/
def cliDeleteFromCsv (st : RemoteState) (usernames : List String)
    (dry_run : Bool) (inputs : List String) : DelEffects :=
  match usernames with
  | [] => { calls := [], promptsShown := 0 }
  | name :: rest =>
    match get_user_by_username st.users name with
    | .error _ =>
      cliDeleteFromCsv st rest dry_run inputs
    | .ok u =>
      if dry_run then cliDeleteFromCsv st rest dry_run inputs
      else
        match inputs with
        | [] => { calls := [], promptsShown := 1 }
        | ans :: moreInputs =>
          let next := cliDeleteFromCsv st rest dry_run moreInputs
          if cliConfirm ans then
            { calls := .deleteUser u.id :: next.calls
              promptsShown := next.promptsShown + 1 }
          else
            { calls := next.calls, promptsShown := next.promptsShown + 1 }

/-- The `delete-user` branch of `cli.py`: the username is looked up; in
dry-run mode only a message is printed; otherwise
`service.delete_user(user.id)` is called immediately — no confirmation
prompt exists on this path. -/
def cliDeleteUser (st : RemoteState) (username : String) (dry_run : Bool) :
    DelEffects :=
  match get_user_by_username st.users username with
  | .error _ => { calls := [], promptsShown := 0 }
  | .ok u =>
    if dry_run then { calls := [], promptsShown := 0 }
    else { calls := [.deleteUser u.id], promptsShown := 0 }

/-! ## Activity classification

v2 `gitlab_users.py` defines `_sign_in_date` twice.  The second
definition, which shadows the first in the class body, delegates to
`__class__._format_date` — a method that does not exist anywhere in the
module, so calling it raises `AttributeError`.  `_getactivity` reaches it
through `_sign_in_date_and_time` for every user whose
`current_sign_in_at` is truthy.  Both the shadowed first definition
(`current_sign_in_at.split("T")[0]`) and the broken second one are
embedded below; v1's classification (which uses the working split) is
embedded as well. -/

/-- A calendar date, ordered lexicographically as `datetime` objects of
equal time-of-day compare. -/
structure PyDate where
  year : Nat
  month : Nat
  day : Nat
  deriving DecidableEq, Repr

/-- `datetime` comparison for dates. -/
def dateLt (a b : PyDate) : Bool :=
  a.year < b.year ∨ (a.year = b.year ∧
    (a.month < b.month ∨ (a.month = b.month ∧ a.day < b.day)))

/-- Split a character list on a separator character (Python
`str.split(sep)`, which yields at least one piece). -/
def splitOnChar (sep : Char) (l : List Char) : List (List Char) :=
  match l with
  | [] => [[]]
  | c :: cs =>
    if c = sep then [] :: splitOnChar sep cs
    else
      match splitOnChar sep cs with
      | [] => [[c]]
      | piece :: rest => (c :: piece) :: rest

/-- Decimal digits parsed as a number (the components `strptime` accepts
for `%Y`, `%m`, `%d`). -/
def parseNatDigits (l : List Char) : Option Nat :=
  if l ≠ [] ∧ l.all Char.isDigit then
    some (l.foldl (fun acc c => acc * 10 + (c.toNat - 48)) 0)
  else none

/-- `datetime.strptime(s, "%Y-%m-%d")`: three dash-separated decimal
components forming a valid month and day, `ValueError` (here `none`)
otherwise. -/
def strptimeYMD (s : String) : Option PyDate :=
  match (splitOnChar '-' s.data).map parseNatDigits with
  | [some y, some m, some d] =>
    if 1 ≤ m ∧ m ≤ 12 ∧ 1 ≤ d ∧ d ≤ 31 then some ⟨y, m, d⟩ else none
  | _ => none

/-- The first (shadowed) v2 `_sign_in_date` definition, identical to
v1's: the date part of `current_sign_in_at`
(`current_sign_in_at.split("T")[0]`), or `None` when that attribute is
falsy. -/
def sign_in_date_v1 (u : RemoteUserRecord) : Option String :=
  match u.current_sign_in_at with
  | some s =>
    if s ≠ "" then some ⟨(splitOnChar 'T' s.data).headD s.data⟩ else none
  | none => none

/-- The second v2 `_sign_in_date` definition — the one Python actually
uses: `__class__._format_date(gl_user, "current_sign_in_at")`, which
raises `AttributeError` because `_format_date` is not defined on the
class. -/
def sign_in_date_v2 (_ : RemoteUserRecord) : Except String (Option String) :=
  .error "AttributeError: type object GLUsers has no attribute _format_date"

/-- v2 `_sign_in_date_and_time` as it actually runs: it calls the broken
`_sign_in_date`, so it always raises. -/
def sign_in_date_and_time_v2 (u : RemoteUserRecord) : Except String PyDate :=
  match sign_in_date_v2 u with
  | .error e => .error e
  | .ok none => .error "TypeError: strptime argument must be str, not None"
  | .ok (some s) =>
    match strptimeYMD s with
    | some d => .ok d
    | none => .error "ValueError: time data does not match format"

/-- `_sign_in_date_and_time` as the shadowed first `_sign_in_date`
definition intends it: parse the date part of the timestamp. -/
def sign_in_date_and_time_fixed (u : RemoteUserRecord) :
    Except String PyDate :=
  match sign_in_date_v1 u with
  | none => .error "TypeError: strptime argument must be str, not None"
  | some s =>
    match strptimeYMD s with
    | some d => .ok d
    | none => .error "ValueError: time data does not match format"

/-- v2 `GLUsers._getactivity`, faithful to the running code: for each
user with a truthy `current_sign_in_at` it computes
`_sign_in_date_and_time` (which raises) and, when the state is `active`,
appends to `already_sign_in` and to `old_sign_in` (sign-in before
`datetime.now() - timedelta(days=365)`, given here as `cutoff`) or to
`active`; users with a falsy timestamp and `active` state go to
`never_sign_in`.  The four lists are
`(old_sign_in, never_sign_in, already_sign_in, active)`. -/
def getactivity_v2 (users : List RemoteUserRecord) (cutoff : PyDate) :
    Except String (List RemoteUserRecord × List RemoteUserRecord ×
      List RemoteUserRecord × List RemoteUserRecord) :=
  match users with
  | [] => .ok ([], [], [], [])
  | u :: rest =>
    if pyTruthy u.current_sign_in_at then
      match sign_in_date_and_time_v2 u with
      | .error e => .error e
      | .ok d =>
        match getactivity_v2 rest cutoff with
        | .error e => .error e
        | .ok (old, never, already, act) =>
          if u.state = "active" then
            if dateLt d cutoff then .ok (u :: old, never, u :: already, act)
            else .ok (old, never, u :: already, u :: act)
          else .ok (old, never, already, act)
    else
      match getactivity_v2 rest cutoff with
      | .error e => .error e
      | .ok (old, never, already, act) =>
        if u.state = "active" then .ok (old, u :: never, already, act)
        else .ok (old, never, already, act)

/-- v2 `_getactivity` as the shadowed first `_sign_in_date` definition
intends it (the same loop over the working date accessor). -/
def getactivity_fixed (users : List RemoteUserRecord) (cutoff : PyDate) :
    Except String (List RemoteUserRecord × List RemoteUserRecord ×
      List RemoteUserRecord × List RemoteUserRecord) :=
  match users with
  | [] => .ok ([], [], [], [])
  | u :: rest =>
    if pyTruthy u.current_sign_in_at then
      match sign_in_date_and_time_fixed u with
      | .error e => .error e
      | .ok d =>
        match getactivity_fixed rest cutoff with
        | .error e => .error e
        | .ok (old, never, already, act) =>
          if u.state = "active" then
            if dateLt d cutoff then .ok (u :: old, never, u :: already, act)
            else .ok (old, never, u :: already, u :: act)
          else .ok (old, never, already, act)
    else
      match getactivity_fixed rest cutoff with
      | .error e => .error e
      | .ok (old, never, already, act) =>
        if u.state = "active" then .ok (old, u :: never, already, act)
        else .ok (old, never, already, act)

/-- The activity classification of v1 `GLUsers.output`: the same loop,
but with only three buckets `(old_sign_in, never_sign_in,
already_sign_in)` — v1 has no recently-active bucket — and the working
date accessor. -/
def getactivity_out_v1 (users : List RemoteUserRecord) (cutoff : PyDate) :
    Except String (List RemoteUserRecord × List RemoteUserRecord ×
      List RemoteUserRecord) :=
  match users with
  | [] => .ok ([], [], [])
  | u :: rest =>
    if pyTruthy u.current_sign_in_at then
      match sign_in_date_and_time_fixed u with
      | .error e => .error e
      | .ok d =>
        match getactivity_out_v1 rest cutoff with
        | .error e => .error e
        | .ok (old, never, already) =>
          if u.state = "active" then
            if dateLt d cutoff then .ok (u :: old, never, u :: already)
            else .ok (old, never, u :: already)
          else .ok (old, never, already)
    else
      match getactivity_out_v1 rest cutoff with
      | .error e => .error e
      | .ok (old, never, already) =>
        if u.state = "active" then .ok (old, u :: never, already)
        else .ok (old, never, already)

/-! ## Sample data for witnesses and counterexamples -/

/-- A one-user remote instance used in concrete checks. -/
def sampleRemote : RemoteState :=
  { users := [⟨1, "bob", some "bob@example.com", "Bob", "active", none⟩]
    groups := ["grp"] }

/-! ## Helper lemmas -/

theorem NewUser_init_dry_run (rec : UserRecord) (d : Bool)
    (ns : NewUserState) (h : NewUser_init rec d = .ok ns) :
    ns.dry_run = d := by
  unfold NewUser_init at h
  split at h
  · split at h
    · split at h
      · exact congrArg NewUserState.dry_run (Except.ok.inj h) ▸ rfl
      · exact absurd h (by simp)
    · exact absurd h (by simp)
  · exact congrArg NewUserState.dry_run (Except.ok.inj h) ▸ rfl

theorem NewUser_save_dry (st : RemoteState) (ns : NewUserState)
    (h : ns.dry_run = true) : NewUser_save st ns = ([], st) := by
  unfold NewUser_save
  simp [h]

theorem createFromCsv_v2_dry_calls (st : RemoteState)
    (recs : List UserRecord) : (createFromCsv_v2 st recs true).1 = [] := by
  induction recs generalizing st with
  | nil => rfl
  | cons rec rest ih =>
    unfold createFromCsv_v2
    cases h : NewUser_init rec true with
    | error e => rfl
    | ok ns =>
      have hd := NewUser_init_dry_run rec true ns h
      simp [NewUser_save_dry st ns hd, ih st]

theorem cliCreateFromCsv_dry (st : RemoteState) (recs : List UserRecord) :
    cliCreateFromCsv st recs true = [] := by
  induction recs with
  | nil => rfl
  | cons rec rest ih =>
    simp only [cliCreateFromCsv, List.map_cons, List.flatten_cons, cliCreateOne,
      if_pos rfl, List.nil_append]
    exact ih

theorem OldUser_delete_dry (st : RemoteState) (username : String)
    (inputs : List String) :
    OldUser_delete st username true inputs = ⟨[], 0⟩ := by
  unfold OldUser_delete
  cases st.users.filter (fun u => u.username = username) <;> simp

theorem cliDeleteFromCsv_dry (st : RemoteState) (names : List String)
    (inputs : List String) :
    cliDeleteFromCsv st names true inputs = ⟨[], 0⟩ := by
  induction names with
  | nil => rfl
  | cons name rest ih =>
    unfold cliDeleteFromCsv
    cases get_user_by_username st.users name <;> simp [ih]

theorem cliDeleteUser_dry (st : RemoteState) (username : String) :
    cliDeleteUser st username true = ⟨[], 0⟩ := by
  unfold cliDeleteUser
  cases get_user_by_username st.users username <;> simp

/-! ## Claim C5 — dry-run safety -/

/-- **C5**: under dry-run mode, for every record (valid or invalid) the
creation workflows (v2 `NewUser.save` batch and the `create-from-csv`
branch of `cli.py`) issue no remote create and no group-membership-add
call — indeed no mutating call at all — and the deletion workflows
(v2 `OldUser.delete`, `delete-from-csv` and `delete-user` of `cli.py`)
issue no remote delete call and never display the confirmation prompt. -/
theorem claim_C5_dry_run_safety :
    (∀ st recs, (createFromCsv_v2 st recs true).1 = []) ∧
    (∀ st recs, cliCreateFromCsv st recs true = []) ∧
    (∀ st username inputs,
      OldUser_delete st username true inputs = ⟨[], 0⟩) ∧
    (∀ st names inputs, cliDeleteFromCsv st names true inputs = ⟨[], 0⟩) ∧
    (∀ st username, cliDeleteUser st username true = ⟨[], 0⟩) :=
  ⟨createFromCsv_v2_dry_calls, cliCreateFromCsv_dry, OldUser_delete_dry,
   cliDeleteFromCsv_dry, cliDeleteUser_dry⟩

/-! ## Claim C10 — missing remote email attribute -/

/-- **C10**: for every remote user record exposing no email attribute,
`list_users` and `get_user_by_username` do not fail: they return a `User`
whose email is the empty string, all other fields taken unchanged from
the remote record (`list_users` maps every record, losing none; the
username lookup needs the username to identify the record, usernames
being unique on a GitLab instance). -/
theorem claim_C10_missing_email (remote : List RemoteUserRecord)
    (r : RemoteUserRecord) (hmem : r ∈ remote) (hemail : r.email = none)
    (huniq : ∀ r' ∈ remote, r'.username = r.username → r' = r) :
    (list_users remote).length = remote.length ∧
    (⟨r.id, r.username, "", r.name, r.state⟩ : User) ∈ list_users remote ∧
    get_user_by_username remote r.username =
      .ok ⟨r.id, r.username, "", r.name, r.state⟩ := by
  refine ⟨by simp [list_users], ?_, ?_⟩
  · have : (⟨r.id, r.username, r.email.getD "", r.name, r.state⟩ : User) ∈
        list_users remote := List.mem_map_of_mem _ hmem
    simpa [hemail] using this
  · unfold get_user_by_username
    have hr : r ∈ remote.filter (fun u => u.username = r.username) := by
      simp [List.mem_filter, hmem]
    cases h : remote.filter (fun u => u.username = r.username) with
    | nil => rw [h] at hr; exact absurd hr (List.not_mem_nil r)
    | cons u rest =>
      have hu : u ∈ remote.filter (fun u => u.username = r.username) := by
        rw [h]; exact List.mem_cons_self u rest
      have := List.mem_filter.mp hu
      have hur : u = r := huniq u this.1 (by simpa using this.2)
      subst hur
      simp [hemail]

/-- Concrete instance of `claim_C10_missing_email`: a remote instance
whose single user has no email attribute. -/
theorem claim_C10_missing_email_witness :
    (list_users [⟨2, "noemail", none, "N", "active", none⟩]).length = 1 ∧
    (⟨2, "noemail", "", "N", "active"⟩ : User) ∈
      list_users [⟨2, "noemail", none, "N", "active", none⟩] ∧
    get_user_by_username [⟨2, "noemail", none, "N", "active", none⟩]
      "noemail" = .ok ⟨2, "noemail", "", "N", "active"⟩ :=
  claim_C10_missing_email [⟨2, "noemail", none, "N", "active", none⟩]
    ⟨2, "noemail", none, "N", "active", none⟩ (by simp) rfl (by simp)


/-! ## Claim C3 — which inputs confirm a deletion -/

theorem validAnswer_some_true (c : String) :
    validAnswer c = some true ↔ (c = "yes" ∨ c = "y" ∨ c = "ye") := by
  unfold validAnswer
  split_ifs with h1 h2 <;> simp_all

theorem query_single_true (s : String) :
    (query_yes_no [s] (some "no")).1 = some true ↔
      (pyLower s = "yes" ∨ pyLower s = "y" ∨ pyLower s = "ye") := by
  unfold query_yes_no queryLoop
  rw [if_pos (by simp)]
  by_cases h : pyLower s = ""
  · rw [h]
    decide
  · simp only [pyTruthy, h]
    rcases hv : validAnswer (pyLower s) with _ | b
    · have hne := (validAnswer_some_true (pyLower s)).not.mp (by simp [hv])
      simp only [hv, queryLoop]
      simpa using hne
    · cases b
      · have hne := (validAnswer_some_true (pyLower s)).not.mp (by simp [hv])
        simp only [hv]
        simpa using hne
      · have := (validAnswer_some_true (pyLower s)).mp hv
        simp only [hv]
        simpa using this

theorem OldUser_delete_calls_len (st : RemoteState) (username : String)
    (dry : Bool) (inputs : List String) :
    (OldUser_delete st username dry inputs).calls.length ≤ 1 := by
  unfold OldUser_delete
  cases st.users.filter (fun u => u.username = username) with
  | nil => simp
  | cons u rest =>
    by_cases hdry : dry = true
    · simp [hdry]
    · by_cases hq : (query_yes_no inputs (some "no")).1 = some true <;>
        simp [hdry, hq]

theorem cliDeleteFromCsv_single (ans : String) :
    cliDeleteFromCsv sampleRemote ["bob"] false [ans] =
      (if cliConfirm ans then ⟨[.deleteUser 1], 1⟩ else ⟨[], 1⟩) := by
  have hlk : get_user_by_username sampleRemote.users "bob" =
      .ok ⟨1, "bob", "bob@example.com", "Bob", "active"⟩ := rfl
  unfold cliDeleteFromCsv
  rw [hlk]
  by_cases h : cliConfirm ans <;> simp [h, cliDeleteFromCsv]

/-- **C3 — counterexample**: the input `ye` is neither `y` nor `yes` in
any letter case, yet it answers the `query_yes_no` confirmation
affirmatively and triggers the deletion in the v2 `OldUser.delete` path:
an input other than a case variant of `y`/`yes` does trigger deletion. -/
theorem claim_C3_cex :
    OldUser_delete sampleRemote "bob" false ["ye"] =
      ⟨[.deleteUser 1], 1⟩ ∧
    pyLower "ye" ≠ "y" ∧ pyLower "ye" ≠ "yes" := by decide

/-- **C3 (amended)**: in the `delete-from-csv` path of `cli.py`, exactly
the stripped, case-insensitive inputs `y` and `yes` trigger deletion; in
the `query_yes_no` prompt guarding both `gitlab_users.py` generations,
the case-insensitive inputs `y`, `yes` and also `ye` trigger deletion;
the empty input defaults to `no` and does not trigger it; deletion is
triggered at most once per prompt. -/
theorem claim_C3_confirmation :
    (∀ s, (query_yes_no [s] (some "no")).1 = some true ↔
      (pyLower s = "yes" ∨ pyLower s = "y" ∨ pyLower s = "ye")) ∧
    ((query_yes_no [""] (some "no")).1 = some false) ∧
    (∀ s, cliConfirm s = true ↔
      (pyLower (pyStripS s) = "y" ∨ pyLower (pyStripS s) = "yes")) ∧
    (∀ ans, cliDeleteFromCsv sampleRemote ["bob"] false [ans] =
      (if cliConfirm ans then ⟨[.deleteUser 1], 1⟩ else ⟨[], 1⟩)) ∧
    (∀ st username dry inputs,
      (OldUser_delete st username dry inputs).calls.length ≤ 1) := by
  refine ⟨query_single_true, by decide, ?_, cliDeleteFromCsv_single,
    OldUser_delete_calls_len⟩
  intro s
  unfold cliConfirm
  simp

/-! ## Claim C1 — no silent deletion -/

theorem OldUser_delete_needs_confirm (st : RemoteState) (username : String)
    (dry : Bool) (inputs : List String)
    (h : (OldUser_delete st username dry inputs).calls ≠ []) :
    dry = false ∧ (query_yes_no inputs (some "no")).1 = some true := by
  unfold OldUser_delete at h
  rcases hfil : st.users.filter (fun u => u.username = username) with _ | ⟨u, rest⟩
  · rw [hfil] at h
    simp at h
  · rw [hfil] at h
    by_cases hdry : dry = true
    · simp [hdry] at h
    · by_cases hq : (query_yes_no inputs (some "no")).1 = some true
      · exact ⟨by simpa using hdry, hq⟩
      · simp [hdry, hq] at h

theorem OldUser_delete_v1_needs_confirm (st : RemoteState)
    (username : String) (inputs : List String)
    (h : (OldUser_delete_v1 st username inputs).calls ≠ []) :
    (query_yes_no inputs (some "no")).1 = some true := by
  unfold OldUser_delete_v1 at h
  rcases hfil : st.users.filter (fun u => u.username = username) with _ | ⟨u, rest⟩
  · rw [hfil] at h
    simp at h
  · rw [hfil] at h
    by_cases hq : (query_yes_no inputs (some "no")).1 = some true
    · exact hq
    · simp [hq] at h

theorem cliDeleteFromCsv_needs_confirm (st : RemoteState)
    (names : List String) (dry : Bool) (inputs : List String)
    (h : (cliDeleteFromCsv st names dry inputs).calls ≠ []) :
    dry = false ∧ ∃ ans ∈ inputs, cliConfirm ans := by
  by_cases hdry : dry = true
  · rw [hdry] at h
    rw [cliDeleteFromCsv_dry] at h
    simp at h
  · refine ⟨by simpa using hdry, ?_⟩
    rw [show dry = false by simpa using hdry] at h
    clear hdry
    induction names generalizing inputs with
    | nil => simp [cliDeleteFromCsv] at h
    | cons name rest ih =>
      unfold cliDeleteFromCsv at h
      rcases hlk : get_user_by_username st.users name with e | u
      · rw [hlk] at h
        exact ih inputs h
      · rw [hlk] at h
        simp only [Bool.false_eq_true, if_false] at h
        cases inputs with
        | nil => simp at h
        | cons ans more =>
          by_cases hc : cliConfirm ans
          · exact ⟨ans, List.mem_cons_self ans more, hc⟩
          · simp only [hc, if_false] at h
            obtain ⟨a, ha, hca⟩ := ih more (by simpa using h)
            exact ⟨a, List.mem_cons_of_mem ans ha, hca⟩

/-- **C1**: the deletion paths guarded by a prompt — v1 and v2
`OldUser.delete` and the `delete-from-csv` branch of `cli.py` — indeed
issue a remote delete call only on a non-dry run with an affirmative
confirmation; but the `delete-user` branch of `cli.py` issues the delete
call for a found user on a non-dry run while displaying zero
confirmation prompts, contradicting the claim (and the subcommand's own
help text, "Confirmation is required."). -/
theorem claim_C1_deletion_confirmation :
    (cliDeleteUser sampleRemote "bob" false =
      ⟨[.deleteUser 1], 0⟩) ∧
    (∀ st username dry inputs,
      (OldUser_delete st username dry inputs).calls ≠ [] →
        dry = false ∧ (query_yes_no inputs (some "no")).1 = some true) ∧
    (∀ st username inputs,
      (OldUser_delete_v1 st username inputs).calls ≠ [] →
        (query_yes_no inputs (some "no")).1 = some true) ∧
    (∀ st names dry inputs,
      (cliDeleteFromCsv st names dry inputs).calls ≠ [] →
        dry = false ∧ ∃ ans ∈ inputs, cliConfirm ans) :=
  ⟨by decide, OldUser_delete_needs_confirm, OldUser_delete_v1_needs_confirm,
   cliDeleteFromCsv_needs_confirm⟩

/-- Concrete instance of `claim_C1_deletion_confirmation`: a non-empty
call list on the v2 `OldUser` path implies a non-dry run and an
affirmative answer. -/
theorem claim_C1_deletion_confirmation_witness :
    false = false ∧ (query_yes_no ["y"] (some "no")).1 = some true :=
  claim_C1_deletion_confirmation.2.1 sampleRemote "bob" false ["y"]
    (by decide)

/-! ## Claim C2 — unrecognized access level -/

/-- A record requesting group `grp` at the unrecognized level `boss`. -/
def badLevelRec : UserRecord :=
  ⟨some "zed", some "Zed", some "zed@example.com", none, none,
   some "grp", some "boss"⟩

/-- A conflict-free record with no group request. -/
def plainRec : UserRecord :=
  ⟨some "amy", some "Amy", some "amy@example.com", none, none, none, none⟩

theorem createFromCsv_v2_bad_level (st : RemoteState)
    (rec : UserRecord) (rest : List UserRecord) (dry : Bool)
    (g lvl : String) (hg : rec.group = some g) (hg' : g ≠ "")
    (hl : rec.access_level = some lvl)
    (hbad : ACCESS_LEVEL.lookup lvl = none) :
    createFromCsv_v2 st (rec :: rest) dry =
      ([], some ("Wrong access level: " ++ lvl ++ " for group " ++ g)) := by
  unfold createFromCsv_v2 NewUser_init
  rw [hg, hl]
  simp [pyTruthy, hg', hbad]

theorem cliCreateFromCsv_cons (st : RemoteState) (rec : UserRecord)
    (rest : List UserRecord) (dry : Bool) :
    cliCreateFromCsv st (rec :: rest) dry =
      cliCreateOne st rec dry ++ cliCreateFromCsv st rest dry := by
  simp [cliCreateFromCsv]

theorem cliCreateOne_bad_level (st : RemoteState) (rec : UserRecord)
    (hgrp : pyTruthy rec.group = true)
    (hal : pyTruthy rec.access_level = true)
    (hbad : cliAccessLevel (rec.access_level.getD "") = none) :
    cliCreateOne st rec false =
      [.createUser rec.username rec.name rec.email
        (if pyTruthy rec.organization then rec.organization else none)
        (if pyTruthy rec.location then rec.location else none) true] := by
  unfold cliCreateOne
  by_cases hex : st.groups.contains (rec.group.getD "") <;>
    simp [hgrp, hal, hex, hbad]

/-- **C2 — counterexample**: for the record `badLevelRec` (group `grp`,
access level `boss`, unknown), the v2 `gitlab_users.py` batch aborts the
entire run in `NewUser.__init__` (`sys.exit`), so the following valid
record `plainRec` is never processed — the batch does not continue; and
the `create-from-csv` branch of `cli.py` issues the remote create call
for the record before the access level is examined — the failure is not
before every remote mutation. -/
theorem claim_C2_cex :
    createFromCsv_v2 sampleRemote [badLevelRec, plainRec] false =
      ([], some "Wrong access level: boss for group grp") ∧
    cliCreateFromCsv sampleRemote [badLevelRec] false =
      [.createUser (some "zed") (some "Zed") (some "zed@example.com")
        none none true] := by decide

/-- **C2 (amended)**: a parsed record requesting group membership with an
unrecognized access level is handled differently by the two generations,
and in neither as claimed: the v2 `gitlab_users.py` workflow fails before
any remote mutation with an error naming the bad level, but by `sys.exit`
— the whole run aborts and the remaining records are never processed; the
`create-from-csv` branch of `cli.py` continues the batch, but only after
having created the record's user remotely — the unknown level merely
skips the group addition. -/
theorem claim_C2_bad_level :
    (∀ st rec rest dry g lvl, rec.group = some g → g ≠ "" →
      rec.access_level = some lvl → ACCESS_LEVEL.lookup lvl = none →
      createFromCsv_v2 st (rec :: rest) dry =
        ([], some ("Wrong access level: " ++ lvl ++ " for group " ++ g))) ∧
    (∀ st rec rest, pyTruthy rec.group = true →
      pyTruthy rec.access_level = true →
      cliAccessLevel (rec.access_level.getD "") = none →
      cliCreateFromCsv st (rec :: rest) false =
        .createUser rec.username rec.name rec.email
          (if pyTruthy rec.organization then rec.organization else none)
          (if pyTruthy rec.location then rec.location else none) true ::
        cliCreateFromCsv st rest false) := by
  constructor
  · intro st rec rest dry g lvl hg hg' hl hbad
    exact createFromCsv_v2_bad_level st rec rest dry g lvl hg hg' hl hbad
  · intro st rec rest hgrp hal hbad
    rw [cliCreateFromCsv_cons, cliCreateOne_bad_level st rec hgrp hal hbad]
    rfl

/-- Concrete instance of `claim_C2_bad_level` at `badLevelRec`. -/
theorem claim_C2_bad_level_witness :
    createFromCsv_v2 sampleRemote [badLevelRec] true =
      ([], some ("Wrong access level: " ++ "boss" ++ " for group " ++ "grp")) ∧
    cliCreateFromCsv sampleRemote [badLevelRec] false =
      .createUser (some "zed") (some "Zed") (some "zed@example.com")
        (if pyTruthy badLevelRec.organization then badLevelRec.organization
          else none)
        (if pyTruthy badLevelRec.location then badLevelRec.location else none)
        true :: cliCreateFromCsv sampleRemote [] false :=
  ⟨claim_C2_bad_level.1 sampleRemote badLevelRec [] true "grp" "boss" rfl
    (by decide) rfl (by decide),
   claim_C2_bad_level.2 sampleRemote badLevelRec [] (by decide) (by decide)
    (by decide)⟩

/-! ## Claim C4 — existing username -/

/-- A record whose username collides with the remote user `bob` while its
email and name are unique. -/
def dupUsernameRec : UserRecord :=
  ⟨some "bob", some "Robert", some "other@example.com", none, none, none,
   none⟩

theorem NewUser_init_username (rec : UserRecord) (d : Bool)
    (ns : NewUserState) (h : NewUser_init rec d = .ok ns) :
    ns.userdict.username = rec.username := by
  unfold NewUser_init at h
  split at h
  · split at h
    · split at h
      · cases Except.ok.inj h
        rfl
      · exact absurd h (by simp)
    · exact absurd h (by simp)
  · cases Except.ok.inj h
    rfl

theorem NewUser_save_username_conflict (st : RemoteState)
    (ns : NewUserState)
    (h : st.users.any (fun u => some u.username = ns.userdict.username)) :
    NewUser_save st ns = ([], st) := by
  unfold NewUser_save NewUser_check
  simp [h]

/-- **C4 — counterexample**: the `create-from-csv` branch of `cli.py`
performs no uniqueness pre-check: for a record whose username `bob`
already belongs to the remote username set (with unique email and name),
the remote create call is still issued. -/
theorem claim_C4_cex :
    sampleRemote.users.any (fun u => some u.username = dupUsernameRec.username) = true ∧
    cliCreateFromCsv sampleRemote [dupUsernameRec] false =
      [.createUser (some "bob") (some "Robert") (some "other@example.com")
        none none true] := by decide

/-- **C4 (amended)**: in the v2 `gitlab_users.py` workflow, a record
whose username already belongs to the current remote username set is
skipped — `NewUser.save` issues no remote call and leaves the remote
state unchanged, even when email and name are unique; the
`create-from-csv` branch of `cli.py`, however, has no conflict check and
issues the create call for every record, conflicting or not. -/
theorem claim_C4_username_conflict :
    (∀ st rec dry ns, NewUser_init rec dry = .ok ns →
      st.users.any (fun u => some u.username = rec.username) →
      NewUser_save st ns = ([], st)) ∧
    (∀ st rec rest, (cliCreateFromCsv st (rec :: rest) false).head? =
      some (.createUser rec.username rec.name rec.email
        (if pyTruthy rec.organization then rec.organization else none)
        (if pyTruthy rec.location then rec.location else none) true)) := by
  constructor
  · intro st rec dry ns hinit hconf
    refine NewUser_save_username_conflict st ns ?_
    rw [NewUser_init_username rec dry ns hinit]
    exact hconf
  · intro st rec rest
    rw [cliCreateFromCsv_cons]
    unfold cliCreateOne
    simp

/-- Concrete instance of `claim_C4_username_conflict`: the duplicate
record is skipped by the v2 workflow with no call issued. -/
theorem claim_C4_username_conflict_witness :
    NewUser_save sampleRemote
      ⟨dupUsernameRec, none, false⟩ = ([], sampleRemote) :=
  claim_C4_username_conflict.1 sampleRemote dupUsernameRec false
    ⟨dupUsernameRec, none, false⟩ rfl (by decide)

/-! ## Claim C8 — activity classification -/

/-- Bucket predicate: active user who has never signed in. -/
def isNeverSignIn (u : RemoteUserRecord) : Bool :=
  ¬ pyTruthy u.current_sign_in_at ∧ u.state = "active"

/-- Bucket predicate: active user who has signed in at least once. -/
def isAlreadySignIn (u : RemoteUserRecord) : Bool :=
  pyTruthy u.current_sign_in_at ∧ u.state = "active"

/-- Bucket predicate: active user whose last sign-in parses to a date
before the cutoff (one year before the run). -/
def isOldSignIn (cutoff : PyDate) (u : RemoteUserRecord) : Bool :=
  isAlreadySignIn u &&
    (match sign_in_date_and_time_fixed u with
     | .ok d => dateLt d cutoff
     | .error _ => false)

/-- Bucket predicate: active user whose last sign-in parses to a date not
before the cutoff. -/
def isRecentActive (cutoff : PyDate) (u : RemoteUserRecord) : Bool :=
  isAlreadySignIn u &&
    (match sign_in_date_and_time_fixed u with
     | .ok d => ! dateLt d cutoff
     | .error _ => false)

theorem getactivity_fixed_spec (users : List RemoteUserRecord)
    (cutoff : PyDate) (o n a ac : List RemoteUserRecord)
    (hres : getactivity_fixed users cutoff = .ok (o, n, a, ac)) :
    o = users.filter (isOldSignIn cutoff) ∧
    n = users.filter isNeverSignIn ∧
    a = users.filter isAlreadySignIn ∧
    ac = users.filter (isRecentActive cutoff) := by
  induction users generalizing o n a ac with
  | nil =>
    cases Except.ok.inj hres
    simp
  | cons v rest ih =>
    unfold getactivity_fixed at hres
    by_cases hv : pyTruthy v.current_sign_in_at = true
    · rw [if_pos hv] at hres
      rcases hd : sign_in_date_and_time_fixed v with e | d <;> rw [hd] at hres
      · exact absurd hres (by simp)
      · rcases hrec : getactivity_fixed rest cutoff with e | ⟨o', n', a', ac'⟩ <;>
          rw [hrec] at hres
        · exact absurd hres (by simp)
        · obtain ⟨ho, hn, ha, hac⟩ := ih o' n' a' ac' hrec
          dsimp only at hres
          by_cases hst : v.state = "active"
          · rw [if_pos hst] at hres
            by_cases hlt : dateLt d cutoff = true
            · rw [if_pos hlt] at hres
              cases Except.ok.inj hres
              refine ⟨?_, ?_, ?_, ?_⟩ <;>
                simp [List.filter_cons, isOldSignIn, isNeverSignIn,
                  isAlreadySignIn, isRecentActive, hv, hst, hd, hlt, ho, hn,
                  ha, hac]
            · rw [if_neg hlt] at hres
              cases Except.ok.inj hres
              refine ⟨?_, ?_, ?_, ?_⟩ <;>
                simp [List.filter_cons, isOldSignIn, isNeverSignIn,
                  isAlreadySignIn, isRecentActive, hv, hst, hd, hlt, ho, hn,
                  ha, hac]
          · rw [if_neg hst] at hres
            cases Except.ok.inj hres
            refine ⟨?_, ?_, ?_, ?_⟩ <;>
              simp [List.filter_cons, isOldSignIn, isNeverSignIn,
                isAlreadySignIn, isRecentActive, hv, hst, ho, hn, ha, hac]
    · rw [if_neg hv] at hres
      rcases hrec : getactivity_fixed rest cutoff with e | ⟨o', n', a', ac'⟩ <;>
        rw [hrec] at hres
      · exact absurd hres (by simp)
      · obtain ⟨ho, hn, ha, hac⟩ := ih o' n' a' ac' hrec
        dsimp only at hres
        by_cases hst : v.state = "active"
        · rw [if_pos hst] at hres
          cases Except.ok.inj hres
          refine ⟨?_, ?_, ?_, ?_⟩ <;>
            simp [List.filter_cons, isOldSignIn, isNeverSignIn,
              isAlreadySignIn, isRecentActive, hv, hst, ho, hn, ha, hac]
        · rw [if_neg hst] at hres
          cases Except.ok.inj hres
          refine ⟨?_, ?_, ?_, ?_⟩ <;>
            simp [List.filter_cons, isOldSignIn, isNeverSignIn,
              isAlreadySignIn, isRecentActive, hv, hst, ho, hn, ha, hac]

theorem getactivity_out_v1_spec (users : List RemoteUserRecord)
    (cutoff : PyDate) (o n a : List RemoteUserRecord)
    (hres : getactivity_out_v1 users cutoff = .ok (o, n, a)) :
    o = users.filter (isOldSignIn cutoff) ∧
    n = users.filter isNeverSignIn ∧
    a = users.filter isAlreadySignIn := by
  induction users generalizing o n a with
  | nil =>
    cases Except.ok.inj hres
    simp
  | cons v rest ih =>
    unfold getactivity_out_v1 at hres
    by_cases hv : pyTruthy v.current_sign_in_at = true
    · rw [if_pos hv] at hres
      rcases hd : sign_in_date_and_time_fixed v with e | d <;> rw [hd] at hres
      · exact absurd hres (by simp)
      · rcases hrec : getactivity_out_v1 rest cutoff with e | ⟨o', n', a'⟩ <;>
          rw [hrec] at hres
        · exact absurd hres (by simp)
        · obtain ⟨ho, hn, ha⟩ := ih o' n' a' hrec
          dsimp only at hres
          by_cases hst : v.state = "active"
          · rw [if_pos hst] at hres
            by_cases hlt : dateLt d cutoff = true
            · rw [if_pos hlt] at hres
              cases Except.ok.inj hres
              refine ⟨?_, ?_, ?_⟩ <;>
                simp [List.filter_cons, isOldSignIn, isNeverSignIn,
                  isAlreadySignIn, hv, hst, hd, hlt, ho, hn, ha]
            · rw [if_neg hlt] at hres
              cases Except.ok.inj hres
              refine ⟨?_, ?_, ?_⟩ <;>
                simp [List.filter_cons, isOldSignIn, isNeverSignIn,
                  isAlreadySignIn, hv, hst, hd, hlt, ho, hn, ha]
          · rw [if_neg hst] at hres
            cases Except.ok.inj hres
            refine ⟨?_, ?_, ?_⟩ <;>
              simp [List.filter_cons, isOldSignIn, isNeverSignIn,
                isAlreadySignIn, hv, hst, ho, hn, ha]
    · rw [if_neg hv] at hres
      rcases hrec : getactivity_out_v1 rest cutoff with e | ⟨o', n', a'⟩ <;>
        rw [hrec] at hres
      · exact absurd hres (by simp)
      · obtain ⟨ho, hn, ha⟩ := ih o' n' a' hrec
        dsimp only at hres
        by_cases hst : v.state = "active"
        · rw [if_pos hst] at hres
          cases Except.ok.inj hres
          refine ⟨?_, ?_, ?_⟩ <;>
            simp [List.filter_cons, isOldSignIn, isNeverSignIn,
              isAlreadySignIn, hv, hst, ho, hn, ha]
        · rw [if_neg hst] at hres
          cases Except.ok.inj hres
          refine ⟨?_, ?_, ?_⟩ <;>
            simp [List.filter_cons, isOldSignIn, isNeverSignIn,
              isAlreadySignIn, hv, hst, ho, hn, ha]

/-- An active user whose last sign-in is years before the run. -/
def staleActiveUser : RemoteUserRecord :=
  ⟨3, "old", some "old@example.com", "Old", "active",
   some "2020-01-01T10:00:00Z"⟩

/-- `datetime.now() - timedelta(days=365)` for a run in October 2024. -/
def runCutoff : PyDate := ⟨2023, 10, 12⟩

/-- **C8**: `_getactivity` as shipped in v2 `gitlab_users.py` does not
classify at all once any user has a sign-in timestamp: the `_sign_in_date`
in force delegates to the undefined `GLUsers._format_date` and raises
`AttributeError` (first conjunct — the code bug).  Under the shadowed
first `_sign_in_date` definition, which is the evident intent, and in the
v1 classification, the claim holds: an active user with no recorded
sign-in is in the never-signed-in bucket and in no other; an active user
whose sign-in date parses and lies before the one-year cutoff is in both
the already-signed-in and old-sign-in buckets and never in the
recently-active bucket. -/
theorem claim_C8_activity_buckets :
    (getactivity_v2 [staleActiveUser] runCutoff =
      .error "AttributeError: type object GLUsers has no attribute _format_date") ∧
    (∀ users cutoff o n a ac,
      getactivity_fixed users cutoff = .ok (o, n, a, ac) →
      ∀ u, u ∈ users → u.state = "active" →
      (pyTruthy u.current_sign_in_at = false →
        (u ∈ n ∧ u ∉ o ∧ u ∉ a ∧ u ∉ ac)) ∧
      (∀ d, pyTruthy u.current_sign_in_at = true →
        sign_in_date_and_time_fixed u = .ok d → dateLt d cutoff = true →
        (u ∈ a ∧ u ∈ o ∧ u ∉ ac))) ∧
    (∀ users cutoff o n a,
      getactivity_out_v1 users cutoff = .ok (o, n, a) →
      ∀ u, u ∈ users → u.state = "active" →
      (pyTruthy u.current_sign_in_at = false → (u ∈ n ∧ u ∉ o ∧ u ∉ a)) ∧
      (∀ d, pyTruthy u.current_sign_in_at = true →
        sign_in_date_and_time_fixed u = .ok d → dateLt d cutoff = true →
        (u ∈ a ∧ u ∈ o))) := by
  refine ⟨rfl, ?_, ?_⟩
  · intro users cutoff o n a ac hres u hmem hstate
    obtain ⟨ho, hn, ha, hac⟩ := getactivity_fixed_spec users cutoff o n a ac hres
    subst ho hn ha hac
    constructor
    · intro hts
      refine ⟨?_, ?_, ?_, ?_⟩ <;>
        simp [List.mem_filter, isNeverSignIn, isOldSignIn, isAlreadySignIn,
          isRecentActive, hts, hstate, hmem]
    · intro d hts hd hlt
      refine ⟨?_, ?_, ?_⟩ <;>
        simp [List.mem_filter, isOldSignIn, isAlreadySignIn, isRecentActive,
          hts, hstate, hmem, hd, hlt]
  · intro users cutoff o n a hres u hmem hstate
    obtain ⟨ho, hn, ha⟩ := getactivity_out_v1_spec users cutoff o n a hres
    subst ho hn ha
    constructor
    · intro hts
      refine ⟨?_, ?_, ?_⟩ <;>
        simp [List.mem_filter, isNeverSignIn, isOldSignIn, isAlreadySignIn,
          hts, hstate, hmem]
    · intro d hts hd hlt
      constructor <;>
        simp [List.mem_filter, isOldSignIn, isAlreadySignIn, hts, hstate,
          hmem, hd, hlt]

/-- Concrete instance of `claim_C8_activity_buckets`: the stale active
user lands in the already-signed-in and old-sign-in buckets of the
intended classification and not in the recently-active one. -/
theorem claim_C8_activity_buckets_witness :
    staleActiveUser ∈ [staleActiveUser] ∧
    staleActiveUser ∈ [staleActiveUser] ∧
    staleActiveUser ∉ ([] : List RemoteUserRecord) :=
  (claim_C8_activity_buckets.2.1 [staleActiveUser] runCutoff
    [staleActiveUser] [] [staleActiveUser] [] (by rfl) staleActiveUser
    (by simp) (by rfl)).2 ⟨2020, 1, 1⟩ (by rfl) (by rfl) (by rfl)

/-! ## Claim C7 — short creation rows -/

/-- **C7**: for every creation-CSV row with fewer than 7 columns, the
missing trailing fields of the parsed record are absent (`None`), not
the empty string: every schema position at or past the row length holds
`none`; and the 3-column example row parses to a record with
`organization`, `location`, `group` and `access_level` all absent. -/
theorem claim_C7_short_rows :
    (∀ (row : List (List Char)) (i : Nat), row.length ≤ i → i < 7 →
      (recordFields (mkRecord row)).get? i = some none) ∧
    get_users_from_csv ("bob,Bob,bob@example.com\n".data) =
      [⟨some "bob", some "Bob", some "bob@example.com", none, none, none,
        none⟩] := by
  constructor
  · intro row i hlen hi
    interval_cases i <;>
      simp [recordFields, mkRecord, List.get?_eq_none.mpr hlen] <;>
      first
      | exact hlen
      | simpa using hlen
  · decide

/-- Concrete instance of `claim_C7_short_rows`: a one-column row has an
absent `organization` (schema position 3). -/
theorem claim_C7_short_rows_witness :
    (recordFields (mkRecord [['a']])).get? 3 = some none :=
  claim_C7_short_rows.1 [['a']] 3 (by decide) (by decide)

/-! ## Claim C6 — deletion-list loader -/

/-- The spec's example deletion file: one valid row, two blank lines,
another valid row. -/
def delListContent : List Char :=
  "bob,Bob,bob@example.com\n\n\nalice,Alice,alice@example.com\n".data

theorem filter_map_head_eq_filterMap (rows : List (List (List Char))) :
    ((rows.filter (fun r => ¬ r.isEmpty)).map
      (fun row => (row.headD []).asString)) =
    rows.filterMap (fun r => r.head?.map List.asString) := by
  induction rows with
  | nil => rfl
  | cons r rest ih =>
    cases r with
    | nil => simpa using ih
    | cons c cs => simpa using ih

theorem firstColumns_of_no_blank (rows : List (List (List Char)))
    (h : ∀ r ∈ rows, r ≠ []) :
    firstColumns rows = some (rows.map (fun r => r.headD [])) := by
  induction rows with
  | nil => rfl
  | cons r rest ih =>
    have hr : r ≠ [] := h r (List.mem_cons_self r rest)
    have hrest := ih (fun x hx => h x (List.mem_cons_of_mem r hx))
    cases r with
    | nil => exact absurd rfl hr
    | cons c cs => simp [firstColumns, hrest]

/-- **C6 — counterexample**: on the spec's own example file (a valid
row, two blank lines, a valid row), the `get_usernames_from_csv` of
v1/v2 `gitlab_users.py` — `[row[0] for row in csvreader]`, with no
blank-row guard — hits `row[0]` on an empty record and raises
`IndexError` (modelled as `none`) instead of returning
`["bob", "alice"]`. -/
theorem claim_C6_cex :
    get_usernames_from_csv_v1 delListContent = none := by decide

/-- **C6 (amended)**: the `utils.py` deletion loader returns exactly the
first column of each non-comment, non-blank row in original file order
(equivalently, the first element of every row that has one); on the
example file it yields `["bob", "alice"]`; and whenever the file has no
fully blank row the v1/v2 `gitlab_users.py` loader agrees with it —
but on a file with a fully blank row that loader raises `IndexError`
instead of skipping the row. -/
theorem claim_C6_deletion_loader :
    (∀ content, get_usernames_from_csv content =
      (pyCsvRows content).filterMap (fun r => r.head?.map List.asString)) ∧
    get_usernames_from_csv delListContent = ["bob", "alice"] ∧
    (∀ content, (∀ r ∈ pyCsvRows content, r ≠ []) →
      get_usernames_from_csv_v1 content =
        some (get_usernames_from_csv content)) ∧
    get_usernames_from_csv_v1 delListContent = none := by
  refine ⟨?_, by decide, ?_, by decide⟩
  · intro content
    exact filter_map_head_eq_filterMap (pyCsvRows content)
  · intro content h
    unfold get_usernames_from_csv_v1 get_usernames_from_csv
    rw [firstColumns_of_no_blank (pyCsvRows content) h]
    have : (pyCsvRows content).filter (fun r => ¬ r.isEmpty) =
        pyCsvRows content := by
      rw [List.filter_eq_self]
      intro r hr
      simpa using h r hr
    rw [this]
    simp

/-- Concrete instance of `claim_C6_deletion_loader`: on a file with no
blank rows the two loaders agree. -/
theorem claim_C6_deletion_loader_witness :
    get_usernames_from_csv_v1 ("bob,Bob\nalice,Alice\n".data) =
      some (get_usernames_from_csv ("bob,Bob\nalice,Alice\n".data)) :=
  claim_C6_deletion_loader.2.2.1 ("bob,Bob\nalice,Alice\n".data)
    (by decide)

/-! ## Claim C9 — CSV export round trip

The reader state machine, run over the output of the writer, recovers
exactly the written rows.  The proof walks the fold: unquoted bodies,
escaped quoted bodies, one encoded field, the separator, the line
terminator, one row, all rows. -/

theorem csvNeedsQuote_cons (c : Char) (cs : List Char) :
    csvNeedsQuote (c :: cs) =
      ((c = ',' ∨ c = '"' ∨ c = '\r' ∨ c = '\n') || csvNeedsQuote cs) := by
  simp [csvNeedsQuote]

theorem csvRun_unq (f : List Char) (hf : csvNeedsQuote f = false)
    (a : List Char) (rec : List (List Char))
    (R : List (List (List Char))) :
    List.foldl csvStep ⟨a, rec, R, .unq⟩ f = ⟨a ++ f, rec, R, .unq⟩ := by
  induction f generalizing a with
  | nil => simp
  | cons c cs ih =>
    rw [csvNeedsQuote_cons] at hf
    have hc : ¬(c = ',' ∨ c = '"' ∨ c = '\r' ∨ c = '\n') := by
      intro h
      simp [h] at hf
    have hcs : csvNeedsQuote cs = false := by
      rcases Bool.or_eq_false_iff.mp hf with ⟨_, h⟩
      exact h
    push_neg at hc
    obtain ⟨h1, h2, h3, h4⟩ := hc
    rw [List.foldl_cons]
    have hstep : csvStep ⟨a, rec, R, .unq⟩ c = ⟨a ++ [c], rec, R, .unq⟩ := by
      simp [csvStep, csvStepStart, h1, h2, h3, h4]
    rw [hstep, ih hcs (a ++ [c])]
    simp

theorem csvRun_q (f : List Char) (a : List Char) (rec : List (List Char))
    (R : List (List (List Char))) :
    List.foldl csvStep ⟨a, rec, R, .q⟩ (csvEscape f) = ⟨a ++ f, rec, R, .q⟩ := by
  induction f generalizing a with
  | nil => simp [csvEscape]
  | cons c cs ih =>
    by_cases hc : c = '"'
    · subst hc
      have henc : csvEscape ('"' :: cs) = '"' :: '"' :: csvEscape cs := by
        simp [csvEscape]
      rw [henc, List.foldl_cons, List.foldl_cons]
      have h1 : csvStep ⟨a, rec, R, .q⟩ '"' = ⟨a, rec, R, .qq⟩ := by
        simp [csvStep]
      have h2 : csvStep ⟨a, rec, R, .qq⟩ '"' = ⟨a ++ ['"'], rec, R, .q⟩ := by
        simp [csvStep]
      rw [h1, h2, ih (a ++ ['"'])]
      simp
    · have henc : csvEscape (c :: cs) = c :: csvEscape cs := by
        simp [csvEscape, hc]
      rw [henc, List.foldl_cons]
      have h1 : csvStep ⟨a, rec, R, .q⟩ c = ⟨a ++ [c], rec, R, .q⟩ := by
        simp [csvStep, hc]
      rw [h1, ih (a ++ [c])]
      simp

/-- The scanner mode at the end of an encoded field. -/
def fieldEndMode (f : List Char) : CsvMode :=
  if csvNeedsQuote f then .qq else if f = [] then .start else .unq

theorem csvRun_encField (f : List Char) (rec : List (List Char))
    (R : List (List (List Char))) :
    List.foldl csvStep ⟨[], rec, R, .start⟩ (csvEncField f) =
      ⟨f, rec, R, fieldEndMode f⟩ := by
  by_cases hq : csvNeedsQuote f = true
  · rw [csvEncField, if_pos hq, fieldEndMode, if_pos hq]
    simp only [List.cons_append]
    rw [List.foldl_cons]
    have h1 : csvStep ⟨[], rec, R, .start⟩ '"' = ⟨[], rec, R, .q⟩ := by
      simp [csvStep, csvStepStart]
    rw [h1, List.foldl_append, csvRun_q f [] rec R]
    have h2 : csvStep ⟨f, rec, R, .q⟩ '"' = ⟨f, rec, R, .qq⟩ := by
      simp [csvStep]
    simp [h2]
  · have hq' : csvNeedsQuote f = false := by simpa using hq
    rw [csvEncField, if_neg (by simp [hq']), fieldEndMode, if_neg (by simp [hq'])]
    cases f with
    | nil => simp
    | cons c cs =>
      rw [csvNeedsQuote_cons] at hq'
      have hc : ¬(c = ',' ∨ c = '"' ∨ c = '\r' ∨ c = '\n') := by
        intro h
        simp [h] at hq'
      have hcs : csvNeedsQuote cs = false := by
        rcases Bool.or_eq_false_iff.mp hq' with ⟨_, h⟩
        exact h
      push_neg at hc
      obtain ⟨h1, h2, h3, h4⟩ := hc
      rw [List.foldl_cons]
      have hstep : csvStep ⟨[], rec, R, .start⟩ c = ⟨[c], rec, R, .unq⟩ := by
        simp [csvStep, csvStepStart, h1, h2, h3, h4]
      rw [hstep, csvRun_unq cs hcs [c] rec R]
      simp

theorem csvRun_sep (f : List Char) (rec : List (List Char))
    (R : List (List (List Char))) :
    csvStep ⟨f, rec, R, fieldEndMode f⟩ ',' = ⟨[], rec ++ [f], R, .start⟩ := by
  unfold fieldEndMode
  split_ifs with h1 h2 <;> simp_all [csvStep, csvStepStart]

theorem csvRun_crlf (f : List Char) (rec : List (List Char))
    (R : List (List (List Char)))
    (h : ¬(rec = [] ∧ f = [] ∧ fieldEndMode f = CsvMode.start)) :
    List.foldl csvStep ⟨f, rec, R, fieldEndMode f⟩ ['\r', '\n'] =
      ⟨[], [], R ++ [rec ++ [f]], .start⟩ := by
  unfold fieldEndMode at h ⊢
  split_ifs with h1 h2 <;>
    simp_all [csvStep, csvStepStart, csvEndRecord]

/-- The body of a written row: comma-joined encoded fields. -/
def csvEncRowBody (fs : List (List Char)) : List Char :=
  (List.intersperse [','] (fs.map csvEncField)).flatten

theorem csvRun_body (fs : List (List Char)) (hne : fs ≠ [])
    (rec : List (List Char)) (R : List (List (List Char)))
    (hguard : ¬(rec = [] ∧ fs = [[]])) :
    List.foldl csvStep ⟨[], rec, R, .start⟩
        (csvEncRowBody fs ++ ['\r', '\n']) =
      ⟨[], [], R ++ [rec ++ fs], .start⟩ := by
  induction fs generalizing rec with
  | nil => exact absurd rfl hne
  | cons f fs' ih =>
    cases fs' with
    | nil =>
      have hbody : csvEncRowBody [f] = csvEncField f := by
        simp [csvEncRowBody]
      rw [hbody, List.foldl_append, csvRun_encField f rec R]
      have hnc : ¬(rec = [] ∧ f = [] ∧ fieldEndMode f = CsvMode.start) := by
        rintro ⟨hrec, hf, -⟩
        exact hguard ⟨hrec, by rw [hf]⟩
      rw [csvRun_crlf f rec R hnc]
    | cons f2 fs'' =>
      have hbody : csvEncRowBody (f :: f2 :: fs'') =
          csvEncField f ++ [','] ++ csvEncRowBody (f2 :: fs'') := by
        simp [csvEncRowBody, List.intersperse_cons_cons]
      rw [hbody]
      rw [List.append_assoc, List.append_assoc, List.foldl_append,
        csvRun_encField f rec R]
      have hsep := csvRun_sep f rec R
      rw [show ([','] ++ (csvEncRowBody (f2 :: fs'') ++ ['\r', '\n'])).foldl
          csvStep (⟨f, rec, R, fieldEndMode f⟩ : CsvSt) =
          List.foldl csvStep (csvStep ⟨f, rec, R, fieldEndMode f⟩ ',')
            (csvEncRowBody (f2 :: fs'') ++ ['\r', '\n']) from by
        simp]
      rw [hsep, ih (by simp) (rec ++ [f]) (by simp)]
      simp

theorem csvRun_row (fs : List (List Char)) (R : List (List (List Char))) :
    List.foldl csvStep ⟨[], [], R, .start⟩ (csvEncRow fs) =
      ⟨[], [], R ++ [fs], .start⟩ := by
  rcases fs with _ | ⟨f, fs'⟩
  · simp [csvEncRow, csvStep, csvStepStart, csvEndRecord]
  · rcases fs' with _ | ⟨f2, fs''⟩
    · rcases f with _ | ⟨c, cs⟩
      · simp [csvEncRow, csvStep, csvStepStart, csvEndRecord]
      · have henc : csvEncRow [c :: cs] = csvEncRowBody [c :: cs] ++ ['\r', '\n'] := by
          simp [csvEncRow, csvEncRowBody]
        rw [henc, csvRun_body [c :: cs] (by simp) [] R (by simp)]
        simp
    · have henc : csvEncRow (f :: f2 :: fs'') =
          csvEncRowBody (f :: f2 :: fs'') ++ ['\r', '\n'] := by
        simp [csvEncRow, csvEncRowBody]
      rw [henc, csvRun_body (f :: f2 :: fs'') (by simp) [] R (by simp)]
      simp

theorem csvRun_rows (rows : List (List (List Char)))
    (R : List (List (List Char))) :
    List.foldl csvStep ⟨[], [], R, .start⟩ ((rows.map csvEncRow).flatten) =
      ⟨[], [], R ++ rows, .start⟩ := by
  induction rows generalizing R with
  | nil => simp
  | cons r rest ih =>
    rw [List.map_cons, List.flatten_cons, List.foldl_append, csvRun_row r R,
      ih (R ++ [r])]
    simp

/-- Reading back anything the writer produced recovers exactly the
written rows. -/
theorem csvParse_encRows (rows : List (List (List Char))) :
    csvParse ((rows.map csvEncRow).flatten) = rows := by
  unfold csvParse csvInit
  rw [csvRun_rows rows []]
  simp [csvFinish]

/-- **C9**: for every list of users, exporting with
`export_users_to_csv` and re-reading the produced file with the CSV
reader yields exactly the header row `id,username,name,email,state`
followed by one row per user carrying the same `id` (in its written
decimal form), `username`, `name`, `email` and `state` values, in the
same order. -/
theorem claim_C9_export_roundtrip (users : List User) :
    csvParse (export_users_to_csv users) =
      exportHeader :: users.map exportedFields := by
  have h : export_users_to_csv users =
      (((exportHeader :: users.map exportedFields).map csvEncRow)).flatten := by
    simp only [export_users_to_csv, List.map_cons, List.flatten_cons,
      List.map_map]
    rfl
  rw [h, csvParse_encRows]
